import Mathlib

/-!
Verification of the SignContext client core logic (src/App.tsx).

Text is modelled as `List Char` (JS strings are sequences of code units; all
texts involved here are plain characters). JS numbers used for confidence
scores are modelled as `ℚ`, which matches the ordering semantics of the
finite floating-point values that occur. Stateful React handlers are
modelled as pure state-transition functions on an explicit `AppState`,
parameterised by the outcomes of the external calls (network, JSON.parse)
and returning the number of network requests issued.
-/

namespace SignContext

/-- The backtick character, U+0060. -/
def btick : Char := Char.ofNat 96

/-- The apostrophe character, U+0027. -/
def apos : Char := Char.ofNat 39

/-- `SignDetection` from src/types.ts. -/
structure SignDetection where
  timestamp : List Char
  gesture : List Char
  meaning : List Char
  confidence : ℚ
deriving DecidableEq

/-- `TranscriptSegment` from src/types.ts. -/
structure TranscriptSegment where
  timestamp : List Char
  speaker : List Char
  text : List Char
deriving DecidableEq

/-- `ContextAnalysis` from src/types.ts. -/
structure ContextAnalysis where
  environment : List Char
  tone : List Char
  nuances : List (List Char)
  culturalNotes : List Char
  reasoning : List Char
deriving DecidableEq

/-- `AnalysisResult` from src/types.ts. -/
structure AnalysisResult where
  signs : List SignDetection
  transcript : List TranscriptSegment
  context : ContextAnalysis
deriving DecidableEq

/-- Chat roles from src/types.ts (`'user' | 'model'`). -/
inductive Role where
  | user
  | model
deriving DecidableEq

/-- `ChatMessage` from src/types.ts; the `Date` timestamp is modelled as `Nat`. -/
structure ChatMessage where
  role : Role
  text : List Char
  timestamp : Nat
deriving DecidableEq

/-- `result?.signs || []` (App.tsx line 246). -/
def signsOf : Option AnalysisResult → List SignDetection
  | some r => r.signs
  | none => []

/-- `result?.transcript || []` (App.tsx line 249). -/
def transcriptOf : Option AnalysisResult → List TranscriptSegment
  | some r => r.transcript
  | none => []

/-- `filteredSigns` (App.tsx line 246):
`(result?.signs || []).filter(s => s.confidence >= confidenceThreshold)`. -/
def filteredSigns (result : Option AnalysisResult) (confidenceThreshold : ℚ) :
    List SignDetection :=
  (signsOf result).filter (fun s => decide (confidenceThreshold ≤ s.confidence))

/-- The tagged union produced by the timeline merge (`type: 'transcript' | 'sign'`,
App.tsx lines 248-251). -/
inductive TimelineItem where
  | sign (s : SignDetection)
  | transcript (t : TranscriptSegment)
deriving DecidableEq

/-- The `timestamp` field of a tagged timeline item. -/
def TimelineItem.timestamp : TimelineItem → List Char
  | .sign s => s.timestamp
  | .transcript t => t.timestamp

/-- JS string comparison: `a ≤ b` in code-unit lexicographic order. The sort
comparator in App.tsx line 251 is `(a, b) => (a.timestamp > b.timestamp ? 1 : -1)`,
which places `a` no later than `b` exactly when `¬(a.timestamp > b.timestamp)`,
i.e. when `lexLe a.timestamp b.timestamp`. -/
def lexLe : List Char → List Char → Bool
  | [], _ => true
  | _ :: _, [] => false
  | a :: as, b :: bs =>
    if a.toNat < b.toNat then true
    else if b.toNat < a.toNat then false
    else lexLe as bs

/-- The ordering used by the timeline sort, lifted to tagged items. -/
def tsLe (a b : TimelineItem) : Prop := lexLe a.timestamp b.timestamp = true

instance : DecidableRel tsLe := fun a b =>
  inferInstanceAs (Decidable (_ = true))

theorem lexLe_total : ∀ a b : List Char, lexLe a b = true ∨ lexLe b a = true := by
  intro a
  induction a with
  | nil => intro b; left; rfl
  | cons x xs ih =>
    intro b
    cases b with
    | nil => right; rfl
    | cons y ys =>
      by_cases hxy : x.toNat < y.toNat
      · left; simp [lexLe, hxy]
      · by_cases hyx : y.toNat < x.toNat
        · right; simp [lexLe, hyx]
        · have := ih ys
          cases this with
          | inl h => left; simp [lexLe, hxy, hyx, h]
          | inr h => right; simp [lexLe, hxy, hyx, h]

theorem lexLe_trans :
    ∀ a b c : List Char, lexLe a b = true → lexLe b c = true → lexLe a c = true := by
  intro a
  induction a with
  | nil => intro b c _ _; rfl
  | cons x xs ih =>
    intro b c hab hbc
    cases b with
    | nil => simp [lexLe] at hab
    | cons y ys =>
      cases c with
      | nil => simp [lexLe] at hbc
      | cons z zs =>
        simp only [lexLe] at hab hbc ⊢
        split_ifs at hab hbc ⊢ <;> first | rfl | omega | skip
        all_goals
          first
          | (exfalso; omega)
          | (exact ih ys zs hab hbc)

instance : IsTotal TimelineItem tsLe :=
  ⟨fun a b => lexLe_total a.timestamp b.timestamp⟩

instance : IsTrans TimelineItem tsLe :=
  ⟨fun a b c => lexLe_trans a.timestamp b.timestamp c.timestamp⟩

/-- `timelineItems` (App.tsx lines 248-251): tag the transcript segments, tag the
filtered signs, concatenate (transcript first), and sort by the comparator
`(a, b) => (a.timestamp > b.timestamp ? 1 : -1)`, i.e. sort by `tsLe`. -/
def timelineItems (result : Option AnalysisResult) (confidenceThreshold : ℚ) :
    List TimelineItem :=
  List.insertionSort tsLe
    ((transcriptOf result).map TimelineItem.transcript ++
      (filteredSigns result confidenceThreshold).map TimelineItem.sign)

/-- The digit character for `d` (`0` is U+0030 = 48). -/
def digitChar (d : Nat) : Char := Char.ofNat (48 + d)

/-- The colon character, U+003A. -/
def colon : Char := Char.ofNat 58

/-- A zero-padded `MM:SS` timestamp for `m` minutes and `s` seconds. -/
def fmtMMSS (m s : Nat) : List Char :=
  [digitChar (m / 10), digitChar (m % 10), colon, digitChar (s / 10), digitChar (s % 10)]

theorem digitChar_toNat (d : Nat) (hd : d < 10) : (digitChar d).toNat = 48 + d := by
  interval_cases d <;> rfl

set_option maxHeartbeats 1000000 in
/-- On zero-padded `MM:SS` text under 100 minutes, code-unit lexicographic order
coincides with numeric order of total seconds. -/
theorem lexLe_fmtMMSS (m1 s1 m2 s2 : Nat) (hm1 : m1 < 100) (hm2 : m2 < 100)
    (hs1 : s1 < 60) (hs2 : s2 < 60) :
    (lexLe (fmtMMSS m1 s1) (fmtMMSS m2 s2) = true) ↔ m1 * 60 + s1 ≤ m2 * 60 + s2 := by
  have d1 : (digitChar (m1 / 10)).toNat = 48 + m1 / 10 := digitChar_toNat _ (by omega)
  have d2 : (digitChar (m1 % 10)).toNat = 48 + m1 % 10 := digitChar_toNat _ (by omega)
  have d3 : (digitChar (s1 / 10)).toNat = 48 + s1 / 10 := digitChar_toNat _ (by omega)
  have d4 : (digitChar (s1 % 10)).toNat = 48 + s1 % 10 := digitChar_toNat _ (by omega)
  have e1 : (digitChar (m2 / 10)).toNat = 48 + m2 / 10 := digitChar_toNat _ (by omega)
  have e2 : (digitChar (m2 % 10)).toNat = 48 + m2 % 10 := digitChar_toNat _ (by omega)
  have e3 : (digitChar (s2 / 10)).toNat = 48 + s2 / 10 := digitChar_toNat _ (by omega)
  have e4 : (digitChar (s2 % 10)).toNat = 48 + s2 % 10 := digitChar_toNat _ (by omega)
  have hc : colon.toNat = 58 := rfl
  simp only [fmtMMSS, lexLe, d1, d2, d3, d4, e1, e2, e3, e4, hc]
  split_ifs <;> simp only [Nat.lt_irrefl, true_iff, false_iff, Bool.true_eq, Bool.false_eq,
    iff_true, iff_false, not_le, not_lt] <;> omega

/-- Sample values mirroring the end-to-end scenario of the spec (§8). -/
def sampleSign : SignDetection :=
  { timestamp := ("00:10").data, gesture := ("Wave").data,
    meaning := ("Hello").data, confidence := 9 / 10 }

def sampleSeg : TranscriptSegment :=
  { timestamp := ("00:05").data, speaker := ("A").data, text := ("Hi").data }

def sampleCtx : ContextAnalysis :=
  { environment := [], tone := [], nuances := [], culturalNotes := [], reasoning := [] }

def sampleResult : AnalysisResult :=
  { signs := [sampleSign], transcript := [sampleSeg], context := sampleCtx }

/-- C1: for every confidence threshold t in [0,1] and every list of SignDetection
entries, the filter step retains exactly the entries with `confidence >= t`;
the boundary is inclusive: a detection whose confidence equals t is retained. -/
theorem c1_filter_inclusive (t : ℚ) (ht0 : 0 ≤ t) (ht1 : t ≤ 1)
    (r : AnalysisResult) (s : SignDetection) :
    (s ∈ filteredSigns (some r) t ↔ s ∈ r.signs ∧ t ≤ s.confidence) ∧
    (s.confidence = t → s ∈ r.signs → s ∈ filteredSigns (some r) t) := by
  constructor
  · simp [filteredSigns, signsOf, List.mem_filter]
  · intro h hs
    simp [filteredSigns, signsOf, List.mem_filter, hs, h]

theorem c1_filter_inclusive_witness :
    (0 : ℚ) ≤ 9 / 10 ∧ (9 / 10 : ℚ) ≤ 1 ∧
    ((sampleSign ∈ filteredSigns (some sampleResult) (9 / 10) ↔
        sampleSign ∈ sampleResult.signs ∧ 9 / 10 ≤ sampleSign.confidence) ∧
      (sampleSign.confidence = 9 / 10 → sampleSign ∈ sampleResult.signs →
        sampleSign ∈ filteredSigns (some sampleResult) (9 / 10))) :=
  ⟨by norm_num, by norm_num,
    c1_filter_inclusive (9 / 10) (by norm_num) (by norm_num) sampleResult sampleSign⟩

/-- C2: the merged timeline is a permutation of the tagged transcript plus the
tagged filtered signs, so it contains exactly `|filtered signs| + |transcript|`
items with nothing dropped or duplicated; the threshold never removes a
transcript segment; and with no analysis result the timeline is empty. -/
theorem c2_merge_counts (r : AnalysisResult) (t : ℚ) :
    (timelineItems (some r) t).Perm
        (r.transcript.map TimelineItem.transcript ++
          (filteredSigns (some r) t).map TimelineItem.sign) ∧
    (timelineItems (some r) t).length =
        (filteredSigns (some r) t).length + r.transcript.length ∧
    (∀ seg : TranscriptSegment,
        TimelineItem.transcript seg ∈ timelineItems (some r) t ↔ seg ∈ r.transcript) ∧
    timelineItems none t = [] := by
  have hperm : (timelineItems (some r) t).Perm
      (r.transcript.map TimelineItem.transcript ++
        (filteredSigns (some r) t).map TimelineItem.sign) := by
    simpa [timelineItems, transcriptOf] using
      List.perm_insertionSort tsLe
        ((transcriptOf (some r)).map TimelineItem.transcript ++
          (filteredSigns (some r) t).map TimelineItem.sign)
  refine ⟨hperm, ?_, ?_, rfl⟩
  · rw [hperm.length_eq]
    simp [Nat.add_comm]
  · intro seg
    rw [hperm.mem_iff]
    simp

/-- C3: the merged timeline is sorted ascending by plain code-unit lexicographic
comparison of the `timestamp` field; on zero-padded `MM:SS` under 100 minutes
this coincides with numeric order of seconds (with the listed examples), while
`"100:00"` sorts strictly before `"20:00"`. -/
theorem c3_lex_sorted (r : Option AnalysisResult) (t : ℚ) :
    (timelineItems r t).Sorted tsLe ∧
    (∀ m1 s1 m2 s2 : Nat, m1 < 100 → m2 < 100 → s1 < 60 → s2 < 60 →
      ((lexLe (fmtMMSS m1 s1) (fmtMMSS m2 s2) = true) ↔ m1 * 60 + s1 ≤ m2 * 60 + s2)) ∧
    lexLe (("00:05").data) (("00:12").data) = true ∧
    lexLe (("00:12").data) (("01:00").data) = true ∧
    lexLe (("01:00").data) (("09:59").data) = true ∧
    lexLe (("00:05").data) (("00:50").data) = true ∧
    lexLe (("00:50").data) (("00:05").data) = false ∧
    lexLe (("100:00").data) (("20:00").data) = true ∧
    lexLe (("20:00").data) (("100:00").data) = false := by
  refine ⟨List.sorted_insertionSort tsLe _, lexLe_fmtMMSS, ?_, ?_, ?_, ?_, ?_, ?_, ?_⟩
    <;> decide

/-! ### Response unwrapping (App.tsx lines 165-178) -/

/-- The whitespace class trimmed by JS `String.prototype.trim`
(space, tab, LF, CR, VT, FF, NBSP, BOM, LS, PS). -/
def isJsWs (c : Char) : Bool :=
  c == ' ' || c == '\t' || c == '\n' || c == '\r' || c == Char.ofNat 11 ||
    c == Char.ofNat 12 || c == Char.ofNat 160 || c == Char.ofNat 0xfeff ||
    c == Char.ofNat 0x2028 || c == Char.ofNat 0x2029

/-- `text.trim()` (App.tsx line 167). -/
def jsTrim (s : List Char) : List Char :=
  ((s.dropWhile isJsWs).reverse.dropWhile isJsWs).reverse

/-- The triple-backtick fence delimiter. -/
def fence3 : List Char := [btick, btick, btick]

/-- `.replace(/^```(json)?\n?/, '')` (App.tsx line 169): remove a leading
triple backtick, then an optional `json` annotation, then an optional
newline. (The regex matches whenever the text starts with the fence;
the surrounding code only applies it in that case.) -/
def stripOpenFence (s : List Char) : List Char :=
  if s.take 3 = fence3 then
    let r := s.drop 3
    let r2 := if r.take 4 = ("json").data then r.drop 4 else r
    if r2.take 1 = ['\n'] then r2.drop 1 else r2
  else s

/-- `.replace(/\n?```$/, '')` (App.tsx line 169): remove a trailing triple
backtick together with an optional preceding newline (greedy: the newline is
consumed when present). -/
def stripCloseFence (s : List Char) : List Char :=
  if s.drop (s.length - 4) = '\n' :: fence3 then s.take (s.length - 4)
  else if s.drop (s.length - 3) = fence3 then s.take (s.length - 3)
  else s

/-- The response unwrapping step (App.tsx lines 167-170): trim, and when the
trimmed text starts with a triple backtick, strip the opening and closing
fence markers. -/
def cleanResponse (s : List Char) : List Char :=
  let t := jsTrim s
  if t.take 3 = fence3 then stripCloseFence (stripOpenFence t) else t

/-- The markdown-fenced form of a payload, annotated `json`. -/
def fenceJson (x : List Char) : List Char :=
  fence3 ++ ("json").data ++ ['\n'] ++ x ++ ['\n'] ++ fence3

/-- The markdown-fenced form of a payload, with no annotation. -/
def fencePlain (x : List Char) : List Char :=
  fence3 ++ ['\n'] ++ x ++ ['\n'] ++ fence3

theorem jsTrim_eq_self (s : List Char) (h1 : s.dropWhile isJsWs = s)
    (h2 : s.reverse.dropWhile isJsWs = s.reverse) : jsTrim s = s := by
  simp [jsTrim, h1, h2]

theorem btick_not_ws : isJsWs btick = false := by decide

/-- Trimming fixes any text that starts and ends with a backtick. -/
theorem jsTrim_btick_ends (mid : List Char) :
    jsTrim (btick :: mid ++ [btick]) = btick :: mid ++ [btick] := by
  apply jsTrim_eq_self
  · simp [List.dropWhile_cons, btick_not_ws]
  · simp [List.reverse_append, List.dropWhile_cons, btick_not_ws]

theorem fenceJson_shape (x : List Char) :
    fenceJson x = btick :: (([btick, btick] ++ ("json").data ++ ['\n'] ++ x ++ ['\n'] ++
      [btick, btick]) ++ [btick]) := by
  simp [fenceJson, fence3]

theorem fencePlain_shape (x : List Char) :
    fencePlain x = btick :: (([btick, btick] ++ ['\n'] ++ x ++ ['\n'] ++
      [btick, btick]) ++ [btick]) := by
  simp [fencePlain, fence3]

theorem stripCloseFence_newline (x : List Char) :
    stripCloseFence (x ++ '\n' :: fence3) = x := by
  have hlen : (x ++ '\n' :: fence3).length = x.length + 4 := by
    simp [fence3]
  have hdrop : (x ++ '\n' :: fence3).drop ((x ++ '\n' :: fence3).length - 4) =
      '\n' :: fence3 := by
    rw [hlen]
    simpa using List.drop_left x ('\n' :: fence3)
  have htake : (x ++ '\n' :: fence3).take ((x ++ '\n' :: fence3).length - 4) = x := by
    rw [hlen]
    simpa using List.take_left x ('\n' :: fence3)
  rw [stripCloseFence, if_pos hdrop, htake]

/-- Unwrapping the `json`-annotated fenced form returns the payload exactly. -/
theorem cleanResponse_fenceJson (x : List Char) : cleanResponse (fenceJson x) = x := by
  have htrim : jsTrim (fenceJson x) = fenceJson x := by
    rw [fenceJson_shape]
    exact jsTrim_btick_ends _
  have hpre : (fenceJson x).take 3 = fence3 := by
    simp [fenceJson, fence3]
  have hopen : stripOpenFence (fenceJson x) =
      x ++ '\n' :: fence3 := by
    rw [stripOpenFence, if_pos hpre]
    have hdrop3 : (fenceJson x).drop 3 = ("json").data ++ '\n' :: (x ++ '\n' :: fence3) := by
      simp [fenceJson, fence3]
    rw [hdrop3]
    simp
  rw [cleanResponse]
  simp only [htrim, hpre, if_pos rfl, hopen]
  exact stripCloseFence_newline x

/-- Unwrapping the unannotated fenced form returns the payload exactly. -/
theorem cleanResponse_fencePlain (x : List Char) : cleanResponse (fencePlain x) = x := by
  have htrim : jsTrim (fencePlain x) = fencePlain x := by
    rw [fencePlain_shape]
    exact jsTrim_btick_ends _
  have hpre : (fencePlain x).take 3 = fence3 := by
    simp [fencePlain, fence3]
  have hopen : stripOpenFence (fencePlain x) = x ++ '\n' :: fence3 := by
    rw [stripOpenFence, if_pos hpre]
    have hdrop3 : (fencePlain x).drop 3 = '\n' :: (x ++ '\n' :: fence3) := by
      simp [fencePlain, fence3]
    rw [hdrop3]
    have hnojson : ('\n' :: (x ++ '\n' :: fence3)).take 4 ≠ ("json").data := by
      intro h
      rcases x with _ | ⟨c, cs⟩ <;> simp_all [fence3]
    simp [hnojson]
  rw [cleanResponse]
  simp only [htrim, hpre, if_pos rfl, hopen]
  exact stripCloseFence_newline x

/-- On input whose trimmed form is not fenced, unwrapping just trims. -/
theorem cleanResponse_unfenced (x : List Char) (hx : (jsTrim x).take 3 ≠ fence3) :
    cleanResponse x = jsTrim x := by
  rw [cleanResponse]
  simp [hx]

/-- C4: the response-unwrapping step strips a leading/trailing triple-backtick
fence (optionally annotated `json`) and acts as the identity (up to the
whitespace trim that a JSON parser ignores) on unfenced input: for every
payload `x` that does not itself look fenced (true of every JSON text) and
every whitespace-insensitive parser, parsing the fenced forms of `x` yields
exactly what parsing `x` directly yields, and the fenced forms unwrap to `x`
itself. -/
theorem c4_fence_unwrap (x : List Char) (parse : List Char → Option AnalysisResult)
    (hx : (jsTrim x).take 3 ≠ fence3)
    (hp : ∀ s, parse (jsTrim s) = parse s) :
    cleanResponse (fenceJson x) = x ∧
    cleanResponse (fencePlain x) = x ∧
    parse (cleanResponse (fenceJson x)) = parse (cleanResponse x) ∧
    parse (cleanResponse (fencePlain x)) = parse (cleanResponse x) := by
  have h1 := cleanResponse_fenceJson x
  have h2 := cleanResponse_fencePlain x
  have h3 := cleanResponse_unfenced x hx
  refine ⟨h1, h2, ?_, ?_⟩
  · rw [h1, h3, hp]
  · rw [h2, h3, hp]

/-- A sample payload: the two-character text `{}`. -/
def sampleJson : List Char := [Char.ofNat 123, Char.ofNat 125]

theorem c4_fence_unwrap_witness :
    ((jsTrim sampleJson).take 3 ≠ fence3) ∧
    (cleanResponse (fenceJson sampleJson) = sampleJson ∧
      cleanResponse (fencePlain sampleJson) = sampleJson ∧
      (fun _ => (none : Option AnalysisResult)) (cleanResponse (fenceJson sampleJson)) =
        (fun _ => (none : Option AnalysisResult)) (cleanResponse sampleJson) ∧
      (fun _ => (none : Option AnalysisResult)) (cleanResponse (fencePlain sampleJson)) =
        (fun _ => (none : Option AnalysisResult)) (cleanResponse sampleJson)) :=
  ⟨by decide,
    c4_fence_unwrap sampleJson (fun _ => none) (by decide) (fun _ => rfl)⟩

/-! ### App state and handlers (App.tsx lines 5-63, 83-244)

React `useState` cells relevant to the claims, gathered into one record.
Handlers become pure state-transition functions, parameterised by the
environment-supplied credentials, the outcome of the single network call they
may issue, and (for `handleAnalyze`) the behavior of `JSON.parse`. Each
returns the new state together with the number of network requests issued. -/

structure AppState where
  file : Option (List Char)
  result : Option AnalysisResult
  chatHistory : List ChatMessage
  chatInput : List Char
  error : Option (List Char)
  analyzing : Bool
  confidenceThreshold : ℚ
  useFastModel : Bool
  customApiKey : List Char
deriving DecidableEq

/-- The outcome of one `ai.models.generateContent` round trip: either the
promise resolves with a `response.text` (possibly absent), or it rejects with
an error message. -/
inductive NetOutcome where
  | reply (text : Option (List Char))
  | raise (message : List Char)
deriving DecidableEq

/-- Credential resolution in `getAiClient` (App.tsx lines 30-32):
`process.env.API_KEY || import.meta.env?.VITE_API_KEY`, then
`customApiKey || envKey`. The empty list is JS falsy `''`/undefined. -/
def effectiveKey (customApiKey procKey viteKey : List Char) : List Char :=
  let envKey := if procKey = [] then viteKey else procKey
  if customApiKey = [] then envKey else customApiKey

/-- "Missing API Key. Please click the 'Key' button to add one." (line 35). -/
def missingKeyMsg : List Char :=
  ("Missing API Key. Please click the ").data ++ apos :: ("Key").data ++
    apos :: (" button to add one.").data

/-- The quota-exceeded banner text (App.tsx line 185). -/
def quotaMsg : List Char :=
  ("Quota Exceeded (429). Please switch to ").data ++ apos :: ("Fast Mode").data ++
    apos :: (" or provide your own API Key via the key icon above.").data

/-- "Analysis result was incomplete. Please try again." (line 177). -/
def parseFailMsg : List Char := ("Analysis result was incomplete. Please try again.").data

/-- "No response generated." (line 180). -/
def noResponseMsg : List Char := ("No response generated.").data

/-- "Failed to analyze media." (line 187). -/
def analyzeFallbackMsg : List Char := ("Failed to analyze media.").data

/-- The catch block of `handleAnalyze` (lines 182-188): a rate-limit
indicator (`'429'` or `'quota'` as a substring) selects the quota banner;
otherwise the error's own message is shown, with a fallback for an empty
message (`err.message || "Failed to analyze media."`). -/
def classifyAnalyzeError (msg : List Char) : List Char :=
  if ("429").data <:+: msg ∨ ("quota").data <:+: msg then quotaMsg
  else if msg = [] then analyzeFallbackMsg
  else msg

/-- `handleAnalyze` (App.tsx lines 83-192) as a state transition. Returns the
new state and the number of `generateContent` calls issued. -/
def handleAnalyze (parseJson : List Char → Option AnalysisResult)
    (procKey viteKey : List Char) (net : NetOutcome) (s : AppState) :
    AppState × Nat :=
  match s.file with
  | none => (s, 0)
  | some _ =>
    let s1 := { s with analyzing := true, error := none }
    if effectiveKey s.customApiKey procKey viteKey = [] then
      ({ s1 with error := some (classifyAnalyzeError missingKeyMsg),
                 analyzing := false }, 0)
    else
      match net with
      | .raise msg =>
        ({ s1 with error := some (classifyAnalyzeError msg), analyzing := false }, 1)
      | .reply none =>
        ({ s1 with error := some (classifyAnalyzeError noResponseMsg),
                   analyzing := false }, 1)
      | .reply (some txt) =>
        if txt = [] then
          ({ s1 with error := some (classifyAnalyzeError noResponseMsg),
                     analyzing := false }, 1)
        else
          match parseJson (cleanResponse txt) with
          | some r => ({ s1 with result := some r, analyzing := false }, 1)
          | none =>
            ({ s1 with error := some (classifyAnalyzeError parseFailMsg),
                       analyzing := false }, 1)

/-- "Error: Quota exceeded. Please set your own API key." (line 238). -/
def chatQuotaMsg : List Char := ("Error: Quota exceeded. Please set your own API key.").data

/-- "Error: Could not process request." (line 239). -/
def chatErrMsg : List Char := ("Error: Could not process request.").data

/-- "I couldn't generate a response." (line 230). -/
def emptyReplyMsg : List Char :=
  ("I couldn").data ++ apos :: ("t generate a response.").data

/-- The catch block of `handleSendMessage` (lines 235-242). -/
def classifyChatError (msg : List Char) : List Char :=
  if ("429").data <:+: msg ∨ ("quota").data <:+: msg then chatQuotaMsg else chatErrMsg

/-- `textOverride || chatInput` (App.tsx line 195). -/
def resolveText (textOverride : Option (List Char)) (chatInput : List Char) : List Char :=
  match textOverride with
  | some t => if t = [] then chatInput else t
  | none => chatInput

/-- `handleSendMessage` (App.tsx lines 194-244) as a state transition. Returns
the new state and the number of `generateContent` calls issued. The `Date`
timestamp of the appended messages is the parameter `now`. -/
def handleSendMessage (procKey viteKey : List Char) (net : NetOutcome) (now : Nat)
    (textOverride : Option (List Char)) (s : AppState) : AppState × Nat :=
  let textToSend := resolveText textOverride s.chatInput
  if jsTrim textToSend = [] ∨ s.file = none then (s, 0)
  else
    let userMsg : ChatMessage := { role := .user, text := textToSend, timestamp := now }
    let s1 := { s with chatHistory := s.chatHistory ++ [userMsg], chatInput := [] }
    if effectiveKey s.customApiKey procKey viteKey = [] then
      ({ s1 with chatHistory := s1.chatHistory ++
          [{ role := .model, text := classifyChatError missingKeyMsg, timestamp := now }] }, 0)
    else
      match net with
      | .raise msg =>
        ({ s1 with chatHistory := s1.chatHistory ++
            [{ role := .model, text := classifyChatError msg, timestamp := now }] }, 1)
      | .reply t =>
        let replyText := match t with
          | some txt => if txt = [] then emptyReplyMsg else txt
          | none => emptyReplyMsg
        ({ s1 with chatHistory := s1.chatHistory ++
            [{ role := .model, text := replyText, timestamp := now }] }, 1)

/-- `handleFileUpload` (App.tsx lines 54-63) as a state transition (the
object-URL preview is outside the model). -/
def handleFileUpload (uploadedFile : Option (List Char)) (s : AppState) : AppState :=
  match uploadedFile with
  | none => s
  | some f =>
    { s with file := some f, result := none, chatHistory := [], error := none }

theorem classify_parseFailMsg : classifyAnalyzeError parseFailMsg = parseFailMsg := by
  decide

theorem classify_missingKeyMsg : classifyAnalyzeError missingKeyMsg = missingKeyMsg := by
  decide

/-- C5: when the response text fails to parse as JSON after fence stripping,
the analysis operation reports the malformed-result error message — a fixed
message distinct from the transport/quota/empty-response messages — and the
stored result is left unchanged (no empty result is substituted). -/
theorem c5_malformed_result (parseJson : List Char → Option AnalysisResult)
    (procKey viteKey txt f : List Char) (s : AppState)
    (hfile : s.file = some f)
    (hkey : effectiveKey s.customApiKey procKey viteKey ≠ [])
    (htxt : txt ≠ [])
    (hbad : parseJson (cleanResponse txt) = none) :
    (handleAnalyze parseJson procKey viteKey (.reply (some txt)) s).1.result = s.result ∧
    (handleAnalyze parseJson procKey viteKey (.reply (some txt)) s).1.error =
      some parseFailMsg ∧
    parseFailMsg ≠ quotaMsg ∧ parseFailMsg ≠ noResponseMsg ∧
    parseFailMsg ≠ analyzeFallbackMsg ∧ parseFailMsg ≠ missingKeyMsg := by
  refine ⟨?_, ?_, by decide, by decide, by decide, by decide⟩ <;>
    simp [handleAnalyze, hfile, hkey, htxt, hbad, classify_parseFailMsg]

/-- A sample state with a selected file and a user-supplied credential. -/
def sampleState : AppState :=
  { file := some (("vid.mp4").data), result := some sampleResult, chatHistory := [],
    chatInput := [], error := none, analyzing := false, confidenceThreshold := 7 / 10,
    useFastModel := true, customApiKey := ("k").data }

theorem c5_malformed_result_witness :
    sampleState.file = some (("vid.mp4").data) ∧
    effectiveKey sampleState.customApiKey [] [] ≠ [] ∧
    ("oops").data ≠ [] ∧
    ((handleAnalyze (fun _ => none) [] [] (.reply (some (("oops").data)))
        sampleState).1.result = sampleState.result ∧
      (handleAnalyze (fun _ => none) [] [] (.reply (some (("oops").data)))
        sampleState).1.error = some parseFailMsg ∧
      parseFailMsg ≠ quotaMsg ∧ parseFailMsg ≠ noResponseMsg ∧
      parseFailMsg ≠ analyzeFallbackMsg ∧ parseFailMsg ≠ missingKeyMsg) :=
  ⟨rfl, by decide, by decide,
    c5_malformed_result (fun _ => none) [] [] (("oops").data) (("vid.mp4").data)
      sampleState rfl (by decide) (by decide) rfl⟩

/-- C6: the credential is resolved user-override first, then the environment
default; and when no credential resolves, the analysis fails immediately with
the missing-credential error and issues zero network calls, leaving the
stored result untouched. -/
theorem c6_missing_credential (parseJson : List Char → Option AnalysisResult)
    (procKey viteKey f : List Char) (net : NetOutcome) (s : AppState)
    (hfile : s.file = some f)
    (hmiss : effectiveKey s.customApiKey procKey viteKey = []) :
    (handleAnalyze parseJson procKey viteKey net s).2 = 0 ∧
    (handleAnalyze parseJson procKey viteKey net s).1.error = some missingKeyMsg ∧
    (handleAnalyze parseJson procKey viteKey net s).1.result = s.result ∧
    (∀ c p v : List Char, c ≠ [] → effectiveKey c p v = c) ∧
    (∀ p v : List Char, effectiveKey [] p v = if p = [] then v else p) := by
  refine ⟨?_, ?_, ?_, ?_, ?_⟩
  · simp [handleAnalyze, hfile, hmiss]
  · simp [handleAnalyze, hfile, hmiss, classify_missingKeyMsg]
  · simp [handleAnalyze, hfile, hmiss]
  · intro c p v hc
    simp [effectiveKey, hc]
  · intro p v
    simp [effectiveKey]

/-- A sample state with a selected file and no credential from any source. -/
def keylessState : AppState :=
  { file := some (("vid.mp4").data), result := some sampleResult, chatHistory := [],
    chatInput := [], error := none, analyzing := false, confidenceThreshold := 7 / 10,
    useFastModel := true, customApiKey := [] }

theorem c6_missing_credential_witness :
    keylessState.file = some (("vid.mp4").data) ∧
    effectiveKey keylessState.customApiKey [] [] = [] ∧
    ((handleAnalyze (fun _ => none) [] [] (.raise (("boom").data)) keylessState).2 = 0 ∧
      (handleAnalyze (fun _ => none) [] [] (.raise (("boom").data)) keylessState).1.error =
        some missingKeyMsg ∧
      (handleAnalyze (fun _ => none) [] [] (.raise (("boom").data)) keylessState).1.result =
        keylessState.result ∧
      (∀ c p v : List Char, c ≠ [] → effectiveKey c p v = c) ∧
      (∀ p v : List Char, effectiveKey [] p v = if p = [] then v else p)) :=
  ⟨rfl, by decide,
    c6_missing_credential (fun _ => none) [] [] (("vid.mp4").data)
      (.raise (("boom").data)) keylessState rfl (by decide)⟩

theorem jsTrim_nil : jsTrim [] = [] := rfl

/-- C7: two sequential chat turns append exactly two user messages and two
model messages in call order, even when the second call fails: the second
model entry is one of the fixed error texts and the first model entry remains
intact; nothing is thrown past the log. -/
theorem c7_chat_error_in_band (procKey viteKey m1 m2 r1 e2 f : List Char)
    (now1 now2 : Nat) (s : AppState)
    (hfile : s.file = some f)
    (hm1 : jsTrim m1 ≠ []) (hm2 : jsTrim m2 ≠ [])
    (hkey : effectiveKey s.customApiKey procKey viteKey ≠ [])
    (hr1 : r1 ≠ []) :
    (handleSendMessage procKey viteKey (.raise e2) now2 (some m2)
        (handleSendMessage procKey viteKey (.reply (some r1)) now1 (some m1) s).1
      ).1.chatHistory =
      s.chatHistory ++
        [{ role := .user, text := m1, timestamp := now1 },
         { role := .model, text := r1, timestamp := now1 },
         { role := .user, text := m2, timestamp := now2 },
         { role := .model, text := classifyChatError e2, timestamp := now2 }] ∧
    (classifyChatError e2 = chatQuotaMsg ∨ classifyChatError e2 = chatErrMsg) := by
  have hm1' : m1 ≠ [] := by
    rintro rfl
    exact hm1 jsTrim_nil
  have hm2' : m2 ≠ [] := by
    rintro rfl
    exact hm2 jsTrim_nil
  constructor
  · simp [handleSendMessage, resolveText, hm1', hm2', hfile, hm1, hm2, hkey, hr1]
  · rw [classifyChatError]
    split_ifs
    · exact Or.inl rfl
    · exact Or.inr rfl

theorem c7_chat_error_in_band_witness :
    sampleState.file = some (("vid.mp4").data) ∧
    jsTrim (("hi").data) ≠ [] ∧ jsTrim (("more").data) ≠ [] ∧
    effectiveKey sampleState.customApiKey [] [] ≠ [] ∧
    ("ok").data ≠ [] ∧
    ((handleSendMessage [] [] (.raise (("fail 429").data)) 2 (some (("more").data))
        (handleSendMessage [] [] (.reply (some (("ok").data))) 1 (some (("hi").data))
          sampleState).1).1.chatHistory =
      sampleState.chatHistory ++
        [{ role := .user, text := ("hi").data, timestamp := 1 },
         { role := .model, text := ("ok").data, timestamp := 1 },
         { role := .user, text := ("more").data, timestamp := 2 },
         { role := .model, text := classifyChatError (("fail 429").data), timestamp := 2 }] ∧
      (classifyChatError (("fail 429").data) = chatQuotaMsg ∨
        classifyChatError (("fail 429").data) = chatErrMsg)) :=
  ⟨rfl, by decide, by decide, by decide, by decide,
    c7_chat_error_in_band [] [] (("hi").data) (("more").data) (("ok").data)
      (("fail 429").data) (("vid.mp4").data) 1 2 sampleState rfl (by decide) (by decide)
      (by decide) (by decide)⟩

/-- C8: a chat turn never modifies the stored AnalysisResult — nor the file,
error banner, analyzing flag, threshold, model selector or credential; its
only state effect is appending messages to the chat log and possibly clearing
the input field. -/
theorem c8_chat_preserves_result (procKey viteKey : List Char) (net : NetOutcome)
    (now : Nat) (textOverride : Option (List Char)) (s : AppState) :
    (handleSendMessage procKey viteKey net now textOverride s).1.result = s.result ∧
    (handleSendMessage procKey viteKey net now textOverride s).1.file = s.file ∧
    (handleSendMessage procKey viteKey net now textOverride s).1.error = s.error ∧
    (handleSendMessage procKey viteKey net now textOverride s).1.analyzing = s.analyzing ∧
    (handleSendMessage procKey viteKey net now textOverride s).1.confidenceThreshold =
      s.confidenceThreshold ∧
    (handleSendMessage procKey viteKey net now textOverride s).1.useFastModel =
      s.useFastModel ∧
    (handleSendMessage procKey viteKey net now textOverride s).1.customApiKey =
      s.customApiKey ∧
    (∃ tail, (handleSendMessage procKey viteKey net now textOverride s).1.chatHistory =
      s.chatHistory ++ tail) ∧
    ((handleSendMessage procKey viteKey net now textOverride s).1.chatInput = [] ∨
      (handleSendMessage procKey viteKey net now textOverride s).1.chatInput =
        s.chatInput) := by
  rw [handleSendMessage]
  split
  · exact ⟨rfl, rfl, rfl, rfl, rfl, rfl, rfl, ⟨[], by simp⟩, Or.inr rfl⟩
  · split
    · exact ⟨rfl, rfl, rfl, rfl, rfl, rfl, rfl, ⟨_, List.append_assoc _ _ _⟩, Or.inl rfl⟩
    · cases net with
      | raise msg =>
        exact ⟨rfl, rfl, rfl, rfl, rfl, rfl, rfl, ⟨_, List.append_assoc _ _ _⟩, Or.inl rfl⟩
      | reply t =>
        exact ⟨rfl, rfl, rfl, rfl, rfl, rfl, rfl, ⟨_, List.append_assoc _ _ _⟩, Or.inl rfl⟩

/-- C9: selecting a new MediaAsset clears the chat log, discards the prior
AnalysisResult wholesale, and clears the prior error, while the confidence
threshold, model-variant selector, credential and input field are unchanged. -/
theorem c9_upload_resets (f : List Char) (s : AppState) :
    (handleFileUpload (some f) s).file = some f ∧
    (handleFileUpload (some f) s).result = none ∧
    (handleFileUpload (some f) s).chatHistory = [] ∧
    (handleFileUpload (some f) s).error = none ∧
    (handleFileUpload (some f) s).confidenceThreshold = s.confidenceThreshold ∧
    (handleFileUpload (some f) s).useFastModel = s.useFastModel ∧
    (handleFileUpload (some f) s).customApiKey = s.customApiKey ∧
    (handleFileUpload (some f) s).chatInput = s.chatInput :=
  ⟨rfl, rfl, rfl, rfl, rfl, rfl, rfl, rfl⟩

/-- C10: invoking the analysis operation with no MediaAsset selected, or the
chat-send operation with no MediaAsset or an empty/whitespace-only message,
is a complete no-op: the state is returned unchanged and zero requests are
issued. -/
theorem c10_silent_guards (parseJson : List Char → Option AnalysisResult)
    (procKey viteKey : List Char) (net : NetOutcome) (now : Nat)
    (ov ov2 : Option (List Char)) (s s2 : AppState)
    (hs : s.file = none)
    (hblank : jsTrim (resolveText ov2 s2.chatInput) = []) :
    handleAnalyze parseJson procKey viteKey net s = (s, 0) ∧
    handleSendMessage procKey viteKey net now ov s = (s, 0) ∧
    handleSendMessage procKey viteKey net now ov2 s2 = (s2, 0) := by
  refine ⟨?_, ?_, ?_⟩
  · rw [handleAnalyze, hs]
  · rw [handleSendMessage, if_pos (Or.inr hs)]
  · rw [handleSendMessage, if_pos (Or.inl hblank)]

/-- A sample state with no file selected. -/
def noFileState : AppState :=
  { file := none, result := none, chatHistory := [], chatInput := ("  ").data,
    error := none, analyzing := false, confidenceThreshold := 7 / 10,
    useFastModel := true, customApiKey := [] }

theorem c10_silent_guards_witness :
    noFileState.file = none ∧
    jsTrim (resolveText none sampleState.chatInput) = [] ∧
    (handleAnalyze (fun _ => none) [] [] (.raise (("boom").data)) noFileState =
        (noFileState, 0) ∧
      handleSendMessage [] [] (.raise (("boom").data)) 3 (some (("hi").data)) noFileState =
        (noFileState, 0) ∧
      handleSendMessage [] [] (.raise (("boom").data)) 3 none sampleState =
        (sampleState, 0)) :=
  ⟨rfl, by decide,
    c10_silent_guards (fun _ => none) [] [] (.raise (("boom").data)) 3
      (some (("hi").data)) none noFileState sampleState rfl (by decide)⟩

end SignContext
